import Mathlib

-- Shallow embedding of src/sensor.c (mscuttari/iot-smart-thermostat).
-- Machine integers are modelled as Int (the temperature is a C int whose
-- values stay far from overflow in every scenario considered here), the
-- C enums as inductive types, and each CoAP handler as a pure function
-- from the global state to the new global state plus its response.

/-- Lower bound of the random initial temperature (TEMP_RANDOM_MIN). -/
def TEMP_RANDOM_MIN : Int := 10

/-- Upper bound of the random initial temperature (TEMP_RANDOM_MAX). -/
def TEMP_RANDOM_MAX : Int := 30

/-- Simulation period in seconds (TEMP_SIM_INTERVAL). -/
def TEMP_SIM_INTERVAL : Nat := 20

/-- Value of the preprocessor macro SIMULATION_ENABLED, defined as 1 at the
    top of sensor.c; it guards the compilation of the temperature_simulation
    process. -/
def SIMULATION_ENABLED : Nat := 1

/-- Value of the preprocessor token SIMULATION as the C preprocessor sees it
    in the conditions at lines 340 and 368 of sensor.c: no such macro is ever
    defined (the file defines SIMULATION_ENABLED instead), and an undefined
    identifier evaluates to 0 inside a preprocessor condition, so the guarded
    process_post calls are removed from the compiled program. -/
def SIMULATION : Nat := 0

/-- The status_t enumeration of sensor.c. -/
inductive status_t
  | NONE
  | COOLING
  | HEATING
  deriving DecidableEq, Repr

/-- Response codes used by the handlers (REST.status.OK and
    REST.status.BAD_REQUEST). -/
inductive rest_status
  | OK
  | BAD_REQUEST
  deriving DecidableEq, Repr

/-- The global mutable variables of sensor.c: temperature, status and
    ventilation. -/
structure SysState where
  temperature : Int
  status : status_t
  ventilation : Bool
  deriving DecidableEq, Repr

open status_t rest_status

/-- The function read_temperature of sensor.c: a pass-through read of the
    global temperature variable. -/
def read_temperature (s : SysState) : Int :=
  s.temperature

/-- The handler cooling_handler of sensor.c. Returns the new global state,
    the response status, and whether a PROCESS_EVENT_MSG is posted to the
    temperature_simulation process. The post at line 341 is guarded by
    the preprocessor condition on SIMULATION, hence the third component is
    SIMULATION != 0. -/
def cooling_handler (s : SysState) : SysState × rest_status × Bool :=
  if s.status ≠ NONE ∧ s.status ≠ COOLING then
    (s, BAD_REQUEST, false)
  else if s.status = NONE then
    (⟨s.temperature, COOLING, s.ventilation⟩, OK, SIMULATION != 0)
  else
    (⟨s.temperature, NONE, s.ventilation⟩, OK, SIMULATION != 0)

/-- The handler heating_handler of sensor.c, symmetric to cooling_handler. -/
def heating_handler (s : SysState) : SysState × rest_status × Bool :=
  if s.status ≠ NONE ∧ s.status ≠ HEATING then
    (s, BAD_REQUEST, false)
  else if s.status = NONE then
    (⟨s.temperature, HEATING, s.ventilation⟩, OK, SIMULATION != 0)
  else
    (⟨s.temperature, NONE, s.ventilation⟩, OK, SIMULATION != 0)

/-- The handler ventilation_handler of sensor.c: an unconditional toggle
    that always answers OK and posts nothing. -/
def ventilation_handler (s : SysState) : SysState × rest_status :=
  if s.ventilation = false then
    (⟨s.temperature, s.status, true⟩, OK)
  else
    (⟨s.temperature, s.status, false⟩, OK)

/-- The timer branch of the temperature_simulation process (sensor.c lines
    222 to 234): factor = ventilation ? 2 : 1; cooling subtracts 1 * factor,
    heating adds 1 * factor, otherwise the temperature is unchanged. -/
def temperature_simulation_tick (s : SysState) : SysState :=
  let factor : Int := if s.ventilation then 2 else 1
  if s.status = COOLING then
    ⟨s.temperature - 1 * factor, s.status, s.ventilation⟩
  else if s.status = HEATING then
    ⟨s.temperature + 1 * factor, s.status, s.ventilation⟩
  else
    s

/-- States reachable from boot: the boot process draws the initial
    temperature in [TEMP_RANDOM_MIN, TEMP_RANDOM_MAX] and sets status = NONE
    and ventilation = false; afterwards the state is only mutated by the
    three handlers, the simulation tick, and the sensing process (which
    writes back read_temperature, an identity in this program). -/
inductive Reachable : SysState → Prop
  | boot : ∀ t : Int, TEMP_RANDOM_MIN ≤ t → t ≤ TEMP_RANDOM_MAX →
      Reachable ⟨t, NONE, false⟩
  | cooling : ∀ s, Reachable s → Reachable (cooling_handler s).1
  | heating : ∀ s, Reachable s → Reachable (heating_handler s).1
  | ventilation : ∀ s, Reachable s → Reachable (ventilation_handler s).1
  | tick : ∀ s, Reachable s → Reachable (temperature_simulation_tick s)
  | sensing : ∀ s, Reachable s → Reachable ⟨read_temperature s, s.status, s.ventilation⟩

/-- Full machine state for the timed behaviour of the program: the global
    variables together with the local state of the temperature_simulation
    process, namely its static variable previous_status (the status recorded
    at the start of the current period) and the remaining seconds of its
    event timer. -/
structure MachineState where
  sys : SysState
  previous_status : status_t
  timer : Nat
  deriving DecidableEq, Repr

/-- The PROCESS_EVENT_MSG branch of the temperature_simulation process
    (sensor.c lines 236 to 244): if the recorded status differs from the
    current status, record the new status and restart the timer; otherwise
    the event falls through and nothing happens. -/
def temperature_simulation_msg (m : MachineState) : MachineState :=
  if m.previous_status ≠ m.sys.status then
    ⟨m.sys, m.sys.status, TEMP_SIM_INTERVAL⟩
  else
    m

/-- Expiry of the simulation timer: apply the tick to the global state and
    rearm the timer for a full period (etimer_restart). -/
def temperature_simulation_fire (m : MachineState) : MachineState :=
  ⟨temperature_simulation_tick m.sys, m.previous_status, TEMP_SIM_INTERVAL⟩

/-- One second of real time elapsing with no external request: the
    simulation timer counts down, and fires when it reaches zero. -/
def elapse1 (m : MachineState) : MachineState :=
  if m.timer ≤ 1 then
    temperature_simulation_fire m
  else
    ⟨m.sys, m.previous_status, m.timer - 1⟩

/-- n seconds of real time elapsing with no external request. -/
def elapse : Nat → MachineState → MachineState
  | 0, m => m
  | n + 1, m => elapse n (elapse1 m)

/-- A POST to systems/cooling at machine level: run cooling_handler on the
    global state; if (and only if) the handler posts PROCESS_EVENT_MSG, the
    simulation process consumes it before further time passes. -/
def do_cooling (m : MachineState) : MachineState × rest_status :=
  let r := cooling_handler m.sys
  let m1 : MachineState := ⟨r.1, m.previous_status, m.timer⟩
  if r.2.2 then (temperature_simulation_msg m1, r.2.1) else (m1, r.2.1)

/-- A POST to systems/heating at machine level, symmetric to do_cooling. -/
def do_heating (m : MachineState) : MachineState × rest_status :=
  let r := heating_handler m.sys
  let m1 : MachineState := ⟨r.1, m.previous_status, m.timer⟩
  if r.2.2 then (temperature_simulation_msg m1, r.2.1) else (m1, r.2.1)

/-- Machine state right after boot with initial temperature T0: status NONE,
    ventilation off, previous_status initialized to the current status, and
    the simulation timer armed for a full period. -/
def machine_init (T0 : Int) : MachineState :=
  ⟨⟨T0, NONE, false⟩, NONE, TEMP_SIM_INTERVAL⟩

/-- The argument the C code passes for each %s in systems_handler: note the
    C string literals already carry escaped quotes around true and false. -/
def systems_arg (b : Bool) : String :=
  if b then "\"true\"" else "\"false\""

/-- The payload built by systems_handler of sensor.c: snprintf of the format
    string (which itself quotes each %s) applied to the three quoted
    arguments. Truncation to the transport chunk size is not modelled: the
    unbounded formatted text is returned. -/
def systems_handler (s : SysState) : String :=
  "\x7b\n\"heating\":\"" ++ systems_arg (s.status == HEATING) ++
  "\",\n\"cooling\":\"" ++ systems_arg (s.status == COOLING) ++
  "\",\n\"ventilation\":\"" ++ systems_arg s.ventilation ++ "\"\n\x7d"

/-- Number of characters %d produces for an Int: the digits of the absolute
    value plus one for the minus sign when negative. -/
def intDecLen (t : Int) : Nat :=
  if t < 0 then Nat.log 10 (-t).toNat + 2 else Nat.log 10 t.toNat + 1

/-- The text temperature_periodic_handler of sensor.c tries to format:
    the fixed part of the format string contributes 18 characters. -/
def periodic_payload_full (t : Int) : String :=
  "\x7b\n\"temperature\":" ++ toString t ++ "\n\x7d"

/-- The return value of the snprintf at line 295 of sensor.c: the number of
    characters the full message needs, regardless of the 20 byte buffer. -/
def periodic_snprintf_ret (t : Int) : Nat :=
  18 + intDecLen t

/-- The number of characters snprintf actually stores in the 20 byte buffer:
    at most 19, since one byte is reserved for the terminating NUL. -/
def periodic_stored_chars (t : Int) : Nat :=
  min (periodic_snprintf_ret t) 19

/-- Modelled from the spec: the repository exposes an info read resource
    that is not present in src/sensor.c; per the spec it returns a fixed
    greeting text, optionally truncated to a caller-supplied length
    parameter clamped to the interval from 0 to the transport chunk size,
    and returned whole when no parameter is supplied. -/
def info_handler (maxChunk : Nat) (lenParam : Option Int) : String :=
  match lenParam with
  | none => "Hello World!"
  | some n => "Hello World!".take (min (if n < 0 then 0 else n.toNat) maxChunk)

/-- Claim C1: in every reachable state the climate status holds exactly one
    of the three values NONE, COOLING or HEATING, and never represents both
    cooling and heating at once; every operation generating Reachable
    preserves this. The exclusivity is structural here because status_t is a
    single three-valued field, exactly as in the C source. -/
theorem climate_status_exclusive : ∀ s : SysState, Reachable s →
    (s.status = NONE ∨ s.status = COOLING ∨ s.status = HEATING) ∧
    ¬(s.status = COOLING ∧ s.status = HEATING) := by
  intro s _
  obtain ⟨t, st, v⟩ := s
  cases st <;> simp

/-- Witness for C1: the invariant at the concrete reachable state with
    temperature 20, status NONE and ventilation off. -/
theorem climate_status_exclusive_witness :
    ((⟨20, NONE, false⟩ : SysState).status = NONE ∨
     (⟨20, NONE, false⟩ : SysState).status = COOLING ∨
     (⟨20, NONE, false⟩ : SysState).status = HEATING) ∧
    ¬((⟨20, NONE, false⟩ : SysState).status = COOLING ∧
      (⟨20, NONE, false⟩ : SysState).status = HEATING) :=
  climate_status_exclusive ⟨20, NONE, false⟩
    (Reachable.boot 20 (by decide) (by decide))

/-- Claim C2: a cooling request while the status is HEATING answers
    BAD_REQUEST, leaves the whole state unchanged and posts nothing;
    symmetrically a heating request while COOLING. -/
theorem opposite_request_conflict : ∀ s : SysState,
    (s.status = HEATING → cooling_handler s = (s, BAD_REQUEST, false)) ∧
    (s.status = COOLING → heating_handler s = (s, BAD_REQUEST, false)) := by
  intro s
  constructor <;> intro h <;> simp [cooling_handler, heating_handler, h]

/-- Witness for C2: the conflicting cooling request at the concrete state
    with status HEATING. -/
theorem opposite_request_conflict_witness :
    (⟨20, HEATING, false⟩ : SysState).status = HEATING ∧
    cooling_handler ⟨20, HEATING, false⟩ =
      (⟨20, HEATING, false⟩, BAD_REQUEST, false) :=
  ⟨rfl, (opposite_request_conflict ⟨20, HEATING, false⟩).1 rfl⟩

/-- Claim C3: one simulation tick moves the temperature from T0 to T0 - 1
    under COOLING without ventilation and to T0 - 2 with ventilation,
    symmetrically plus 1 or 2 under HEATING, and leaves the state unchanged
    under NONE. -/
theorem tick_temperature_delta : ∀ (T0 : Int) (v : Bool),
    (temperature_simulation_tick ⟨T0, COOLING, v⟩).temperature =
      T0 - (if v then 2 else 1) ∧
    (temperature_simulation_tick ⟨T0, HEATING, v⟩).temperature =
      T0 + (if v then 2 else 1) ∧
    temperature_simulation_tick ⟨T0, NONE, v⟩ = ⟨T0, NONE, v⟩ := by
  intro T0 v
  cases v <;> simp [temperature_simulation_tick]

/-- Counterexample for claim C5 as stated: a cooling request while the
    status is already COOLING does not answer BAD_REQUEST and does not
    leave the state unchanged. -/
theorem same_kind_request_not_conflict :
    (cooling_handler ⟨20, COOLING, false⟩).2.1 ≠ BAD_REQUEST ∧
    (cooling_handler ⟨20, COOLING, false⟩).1 ≠ (⟨20, COOLING, false⟩ : SysState) := by
  decide

/-- Claim C5 amended: a request whose kind equals the current status is
    interpreted as a stop: the handler answers OK and the status returns to
    NONE, temperature and ventilation untouched (and, in the compiled
    program, nothing is posted). -/
theorem same_kind_request_toggles_off : ∀ s : SysState,
    (s.status = COOLING →
      cooling_handler s = (⟨s.temperature, NONE, s.ventilation⟩, OK, false)) ∧
    (s.status = HEATING →
      heating_handler s = (⟨s.temperature, NONE, s.ventilation⟩, OK, false)) := by
  intro s
  constructor <;> intro h <;> simp [cooling_handler, heating_handler, h, SIMULATION]

/-- Witness for the amended C5: stopping the cooling system from the
    concrete state with status COOLING. -/
theorem same_kind_request_toggles_off_witness :
    (⟨20, COOLING, true⟩ : SysState).status = COOLING ∧
    cooling_handler ⟨20, COOLING, true⟩ = (⟨20, NONE, true⟩, OK, false) :=
  ⟨rfl, (same_kind_request_toggles_off ⟨20, COOLING, true⟩).1 rfl⟩

/-- Claim C4, evaluated against the compiled code: no call to
    cooling_handler or heating_handler ever posts PROCESS_EVENT_MSG, because
    the posts are guarded by the undefined macro SIMULATION; in particular
    the successful transition from NONE to COOLING answers OK yet posts
    nothing, contradicting the claim that every successful transition
    notifies the Temperature Simulator. -/
theorem successful_transition_never_posts :
    (∀ s : SysState,
      (cooling_handler s).2.2 = false ∧ (heating_handler s).2.2 = false) ∧
    cooling_handler ⟨20, NONE, false⟩ =
      (⟨20, COOLING, false⟩, OK, false) := by
  constructor
  · intro s
    constructor
    · unfold cooling_handler
      split
      · rfl
      · split <;> rfl
    · unfold heating_handler
      split
      · rfl
      · split <;> rfl
  · decide

/-- Claim C6, evaluated against the code at status HEATING with ventilation
    on: the systems payload double-quotes every boolean (the format string
    quotes each %s and the arguments are already quoted) and separates the
    fields with newlines, so it is not the single-quoted JSON object the
    claim states, for any temperature. -/
theorem systems_payload_double_quoted : ∀ t : Int,
    systems_handler ⟨t, HEATING, true⟩ =
      "\x7b\n\"heating\":\"\"true\"\",\n\"cooling\":\"\"false\"\",\n\"ventilation\":\"\"true\"\"\n\x7d" ∧
    systems_handler ⟨t, HEATING, true⟩ ≠
      "\x7b\"heating\":\"true\",\"cooling\":\"false\",\"ventilation\":\"true\"\x7d" := by
  intro t
  have h : systems_handler ⟨t, HEATING, true⟩ =
      "\x7b\n\"heating\":\"\"true\"\",\n\"cooling\":\"\"false\"\",\n\"ventilation\":\"\"true\"\"\n\x7d" := rfl
  exact ⟨h, by rw [h]; decide⟩

/-- Claim C7, evaluated against the compiled code: start from temperature
    20 with the simulation timer freshly armed, let 15 seconds pass,
    activate cooling (request answered OK), let 10 more seconds pass (half a
    simulation period after the activation), then deactivate cooling
    (answered OK). The simulation timer, never restarted because no
    notification is ever posted, fires 20 seconds after boot while cooling
    is active, so the temperature ends at 19, not at the initial 20 the
    claim requires. -/
theorem half_period_cooling_changes_temperature :
    (do_cooling (elapse 15 (machine_init 20))).2 = OK ∧
    (do_cooling (elapse 10 (do_cooling (elapse 15 (machine_init 20))).1)).2 = OK ∧
    (do_cooling (elapse 10 (do_cooling (elapse 15 (machine_init 20))).1)).1.sys.temperature = 19 := by
  decide

/-- Claim C8: a PROCESS_EVENT_MSG received while the recorded
    previous_status equals the current status is ignored: the simulator
    state, its timer included, is exactly unchanged. -/
theorem spurious_msg_ignored : ∀ m : MachineState,
    m.previous_status = m.sys.status → temperature_simulation_msg m = m := by
  intro m h
  simp [temperature_simulation_msg, h]

/-- Witness for C8: a spurious notification at a concrete machine state
    with 7 seconds left on the timer. -/
theorem spurious_msg_ignored_witness :
    (⟨⟨20, COOLING, false⟩, COOLING, 7⟩ : MachineState).previous_status =
      (⟨⟨20, COOLING, false⟩, COOLING, 7⟩ : MachineState).sys.status ∧
    temperature_simulation_msg ⟨⟨20, COOLING, false⟩, COOLING, 7⟩ =
      ⟨⟨20, COOLING, false⟩, COOLING, 7⟩ :=
  ⟨rfl, spurious_msg_ignored ⟨⟨20, COOLING, false⟩, COOLING, 7⟩ rfl⟩

/-- Claim C9: the info resource, modelled from the spec, returns exactly
    the 5 bytes Hello for length parameter 5, the full 12 byte greeting when
    no parameter is given, and zero bytes for a negative parameter, for any
    transport chunk size of at least 12. -/
theorem info_resource_truncation : ∀ mc : Nat, 12 ≤ mc →
    (info_handler mc (some 5) = "Hello" ∧ (info_handler mc (some 5)).length = 5) ∧
    (info_handler mc none = "Hello World!" ∧ (info_handler mc none).length = 12) ∧
    (∀ n : Int, n < 0 → info_handler mc (some n) = "") := by
  intro mc hmc
  have h5 : min (if (5 : Int) < 0 then 0 else (5 : Int).toNat) mc = 5 := by
    rw [if_neg (by norm_num)]
    show min 5 mc = 5
    omega
  refine ⟨⟨?_, ?_⟩, ⟨rfl, rfl⟩, ?_⟩
  · show "Hello World!".take (min (if (5 : Int) < 0 then 0 else (5 : Int).toNat) mc) = "Hello"
    rw [h5]
    decide
  · show ("Hello World!".take (min (if (5 : Int) < 0 then 0 else (5 : Int).toNat) mc)).length = 5
    rw [h5]
    decide
  · intro n hn
    show "Hello World!".take (min (if n < 0 then 0 else n.toNat) mc) = ""
    rw [if_pos hn, Nat.zero_min]
    decide

/-- Witness for C9: the three scenario answers at the concrete chunk size
    64 and negative parameter minus 3. -/
theorem info_resource_truncation_witness :
    (12 : Nat) ≤ 64 ∧ info_handler 64 (some 5) = "Hello" ∧
    info_handler 64 none = "Hello World!" ∧ info_handler 64 (some (-3)) = "" :=
  ⟨by decide, (info_resource_truncation 64 (by decide)).1.1,
   (info_resource_truncation 64 (by decide)).2.1.1,
   (info_resource_truncation 64 (by decide)).2.2 (-3) (by decide)⟩

/-- Claim C10: the snprintf at line 295 of sensor.c needs 20 or more
    characters exactly when the temperature is negative or has two or more
    digits, and in every such case the length handed to coap_set_payload
    strictly exceeds the number of characters the 20 byte buffer actually
    received, so the declared payload extends past the truncated string. -/
theorem periodic_payload_length_overrun : ∀ t : Int,
    (20 ≤ periodic_snprintf_ret t ↔ (t < 0 ∨ 10 ≤ t)) ∧
    ((t < 0 ∨ 10 ≤ t) → periodic_stored_chars t < periodic_snprintf_ret t) := by
  intro t
  have key : 20 ≤ periodic_snprintf_ret t ↔ (t < 0 ∨ 10 ≤ t) := by
    unfold periodic_snprintf_ret intDecLen
    by_cases h : t < 0
    · rw [if_pos h]
      exact ⟨fun _ => Or.inl h, fun _ => by omega⟩
    · rw [if_neg h]
      push_neg at h
      constructor
      · intro hle
        right
        have hlog : 1 ≤ Nat.log 10 t.toNat := by omega
        have hne : t.toNat ≠ 0 := by
          intro h0
          rw [h0, Nat.log_zero_right] at hlog
          omega
        have hp : 10 ^ Nat.log 10 t.toNat ≤ t.toNat := Nat.pow_log_le_self 10 hne
        have h10 : 10 ≤ t.toNat := by
          calc (10 : Nat) = 10 ^ 1 := by norm_num
            _ ≤ 10 ^ Nat.log 10 t.toNat := Nat.pow_le_pow_right (by norm_num) hlog
            _ ≤ t.toNat := hp
        omega
      · rintro (h10 | h10)
        · omega
        · have htn : (10 : Nat) ≤ t.toNat := by omega
          have := Nat.log_pos (by norm_num) htn
          omega
  refine ⟨key, fun hcond => ?_⟩
  have h20 := key.mpr hcond
  unfold periodic_stored_chars
  omega

/-- Witness for C10: at temperature 25 the stored characters fall short of
    the declared payload length. -/
theorem periodic_payload_length_overrun_witness :
    ((25 : Int) < 0 ∨ (10 : Int) ≤ 25) ∧
    periodic_stored_chars 25 < periodic_snprintf_ret 25 :=
  ⟨Or.inr (by decide), (periodic_payload_length_overrun 25).2 (Or.inr (by decide))⟩

/-- Sanity check tying the arithmetic model of the periodic payload to the
    formatted text itself: at temperature 25 the full message is 20
    characters long and periodic_snprintf_ret agrees. -/
theorem periodic_payload_full_len_example :
    (periodic_payload_full 25).length = 20 ∧ periodic_snprintf_ret 25 = 20 := by
  constructor
  · rfl
  · unfold periodic_snprintf_ret intDecLen
    rw [if_neg (by norm_num)]
    have h25 : (25 : Int).toNat = 25 := rfl
    rw [h25]
    have : Nat.log 10 25 = 1 :=
      Nat.log_eq_of_pow_le_of_lt_pow (by norm_num) (by norm_num)
    omega
